import Mathlib

/-!
Verification of the SASSI microservices early-warning pipeline.

This file is a shallow embedding, in Lean 4, of the pure core of the
system: the NEWS2 scorer (`ewsCalculator.js`, `calculateEWS`), the
sensor-value consensus engine (`Data Collector Service/utils/consensus.js`,
`determineConsensus`), the read-model projector (`updateReadModel` of the
EWS command handler), the alert classification
(`EWS Service/services/alertService.js`, `determineAlertType`) together
with the alert gate of `attemptConsensus`, the persisted consensus schema
(`models/sensorData.js`), and the consciousness translation
(`Data Collector Service/utils/ewsHelper.js`, `mapConsciousnessValue`).

Modelling conventions: JavaScript numbers are rationals (`ℚ`), timestamps
are integers (milliseconds since epoch, `ℤ`), JS objects are structures,
JS `null`/`undefined` results are `Option`, and a JS `TypeError` raised on
an absent object is `Option.none` of the whole computation.
-/

namespace SASSI

/-- Vital-sign vector as consumed by `calculateEWS`: numeric values are
rationals, consciousness is the AVPU string the callers have translated
it to before the call. -/
structure VitalSigns where
  respiratoryRate : ℚ
  oxygenSaturation : ℚ
  temperature : ℚ
  systolicBP : ℚ
  heartRate : ℚ
  consciousness : String
deriving DecidableEq

/-- Per-vital component scores, as in the `scoreComponents` object of
`calculateEWS`. -/
structure ScoreComponents where
  respiratoryRate : ℕ
  oxygenSaturation : ℕ
  temperature : ℕ
  systolicBP : ℕ
  heartRate : ℕ
  consciousness : ℕ
deriving DecidableEq

/-- Result record of `calculateEWS`. -/
structure EWSResult where
  scoreComponents : ScoreComponents
  totalScore : ℕ
  clinicalRisk : String
deriving DecidableEq

/-- Respiratory-rate branch chain of `calculateEWS`.  Values matched by no
branch keep the initial component value 0. -/
def respiratoryRateScore (v : ℚ) : ℕ :=
  if v ≤ 8 then 3
  else if 9 ≤ v ∧ v ≤ 11 then 1
  else if 12 ≤ v ∧ v ≤ 20 then 0
  else if 21 ≤ v ∧ v ≤ 24 then 2
  else if 25 ≤ v then 3
  else 0

/-- Oxygen-saturation branch chain of `calculateEWS`. -/
def oxygenSaturationScore (v : ℚ) : ℕ :=
  if v ≤ 91 then 3
  else if 92 ≤ v ∧ v ≤ 93 then 2
  else if 94 ≤ v ∧ v ≤ 95 then 1
  else if 96 ≤ v then 0
  else 0

/-- Temperature branch chain of `calculateEWS` (decimal bounds 35.1, 36.1,
38.1, 39.1 written as reduced rationals). -/
def temperatureScore (v : ℚ) : ℕ :=
  if v ≤ 35 then 3
  else if mkRat 351 10 ≤ v ∧ v ≤ 36 then 1
  else if mkRat 361 10 ≤ v ∧ v ≤ 38 then 0
  else if mkRat 381 10 ≤ v ∧ v ≤ 39 then 1
  else if mkRat 391 10 ≤ v then 2
  else 0

/-- Systolic-blood-pressure branch chain of `calculateEWS`. -/
def systolicBPScore (v : ℚ) : ℕ :=
  if v ≤ 90 then 3
  else if 91 ≤ v ∧ v ≤ 100 then 2
  else if 101 ≤ v ∧ v ≤ 110 then 1
  else if 111 ≤ v ∧ v ≤ 219 then 0
  else if 220 ≤ v then 3
  else 0

/-- Heart-rate branch chain of `calculateEWS`. -/
def heartRateScore (v : ℚ) : ℕ :=
  if v ≤ 40 then 3
  else if 41 ≤ v ∧ v ≤ 50 then 1
  else if 51 ≤ v ∧ v ≤ 90 then 0
  else if 91 ≤ v ∧ v ≤ 110 then 1
  else if 111 ≤ v ∧ v ≤ 130 then 2
  else if 131 ≤ v then 3
  else 0

/-- Consciousness branch of `calculateEWS`: the string `Alert` scores 0,
the strings `Voice`, `Pain`, `Unresponsive` score 3, anything else keeps
the initial 0. -/
def consciousnessScore (s : String) : ℕ :=
  if s = "Alert" then 0
  else if s = "Voice" ∨ s = "Pain" ∨ s = "Unresponsive" then 3
  else 0

/-- `determineClinicalRisk` of `ewsCalculator.js`; the same threshold chain
is inlined at the end of `calculateEWS`. -/
def determineClinicalRisk (score : ℕ) : String :=
  if 7 ≤ score then "High"
  else if 5 ≤ score then "Medium"
  else if 1 ≤ score then "Low-Medium"
  else "Low"

/-- `calculateEWS` of `ewsCalculator.js`: component scores in declaration
order, their sum, and the clinical-risk chain applied to the sum. -/
def calculateEWS (vs : VitalSigns) : EWSResult :=
  let sc : ScoreComponents :=
    { respiratoryRate := respiratoryRateScore vs.respiratoryRate
      oxygenSaturation := oxygenSaturationScore vs.oxygenSaturation
      temperature := temperatureScore vs.temperature
      systolicBP := systolicBPScore vs.systolicBP
      heartRate := heartRateScore vs.heartRate
      consciousness := consciousnessScore vs.consciousness }
  let total := sc.respiratoryRate + sc.oxygenSaturation + sc.temperature +
    sc.systolicBP + sc.heartRate + sc.consciousness
  { scoreComponents := sc, totalScore := total,
    clinicalRisk := determineClinicalRisk total }

/-- Respiratory-rate row of the NEWS2 banding table of §4.1 of the
specification, as a partial band lookup: `none` on values in no band. -/
def specRespiratoryRateBand (v : ℚ) : Option ℕ :=
  if v ≤ 8 then some 3
  else if 9 ≤ v ∧ v ≤ 11 then some 1
  else if 12 ≤ v ∧ v ≤ 20 then some 0
  else if 21 ≤ v ∧ v ≤ 24 then some 2
  else if 25 ≤ v then some 3
  else none

/-- Oxygen-saturation row of the NEWS2 table of §4.1. -/
def specOxygenSaturationBand (v : ℚ) : Option ℕ :=
  if v ≤ 91 then some 3
  else if 92 ≤ v ∧ v ≤ 93 then some 2
  else if 94 ≤ v ∧ v ≤ 95 then some 1
  else if 96 ≤ v then some 0
  else none

/-- Temperature row of the NEWS2 table of §4.1. -/
def specTemperatureBand (v : ℚ) : Option ℕ :=
  if v ≤ 35 then some 3
  else if mkRat 351 10 ≤ v ∧ v ≤ 36 then some 1
  else if mkRat 361 10 ≤ v ∧ v ≤ 38 then some 0
  else if mkRat 381 10 ≤ v ∧ v ≤ 39 then some 1
  else if mkRat 391 10 ≤ v then some 2
  else none

/-- Systolic-blood-pressure row of the NEWS2 table of §4.1. -/
def specSystolicBPBand (v : ℚ) : Option ℕ :=
  if v ≤ 90 then some 3
  else if 91 ≤ v ∧ v ≤ 100 then some 2
  else if 101 ≤ v ∧ v ≤ 110 then some 1
  else if 111 ≤ v ∧ v ≤ 219 then some 0
  else if 220 ≤ v then some 3
  else none

/-- Heart-rate row of the NEWS2 table of §4.1. -/
def specHeartRateBand (v : ℚ) : Option ℕ :=
  if v ≤ 40 then some 3
  else if 41 ≤ v ∧ v ≤ 50 then some 1
  else if 51 ≤ v ∧ v ≤ 90 then some 0
  else if 91 ≤ v ∧ v ≤ 110 then some 1
  else if 111 ≤ v ∧ v ≤ 130 then some 2
  else if 131 ≤ v then some 3
  else none

/-- Consciousness row of the NEWS2 table of §4.1: Alert scores 0, the
other three AVPU strings score 3, anything else is in no band. -/
def specConsciousnessBand (s : String) : Option ℕ :=
  if s = "Alert" then some 0
  else if s = "Voice" ∨ s = "Pain" ∨ s = "Unresponsive" then some 3
  else none

/-- Clinical-risk mapping of the specification: High for totals ≥ 7,
Medium for 5–6, Low-Medium for 1–4, Low for 0. -/
def specClinicalRisk (n : ℕ) : String :=
  if 7 ≤ n then "High"
  else if 5 ≤ n ∧ n ≤ 6 then "Medium"
  else if 1 ≤ n ∧ n ≤ 4 then "Low-Medium"
  else "Low"

lemma respiratoryRateScore_conform {v : ℚ} {s : ℕ}
    (h : specRespiratoryRateBand v = some s) : respiratoryRateScore v = s := by
  unfold specRespiratoryRateBand at h
  unfold respiratoryRateScore
  split_ifs at h ⊢ <;> simp_all

lemma oxygenSaturationScore_conform {v : ℚ} {s : ℕ}
    (h : specOxygenSaturationBand v = some s) : oxygenSaturationScore v = s := by
  unfold specOxygenSaturationBand at h
  unfold oxygenSaturationScore
  split_ifs at h ⊢ <;> simp_all

lemma temperatureScore_conform {v : ℚ} {s : ℕ}
    (h : specTemperatureBand v = some s) : temperatureScore v = s := by
  unfold specTemperatureBand at h
  unfold temperatureScore
  split_ifs at h ⊢ <;> simp_all

lemma systolicBPScore_conform {v : ℚ} {s : ℕ}
    (h : specSystolicBPBand v = some s) : systolicBPScore v = s := by
  unfold specSystolicBPBand at h
  unfold systolicBPScore
  split_ifs at h ⊢ <;> simp_all

lemma heartRateScore_conform {v : ℚ} {s : ℕ}
    (h : specHeartRateBand v = some s) : heartRateScore v = s := by
  unfold specHeartRateBand at h
  unfold heartRateScore
  split_ifs at h ⊢ <;> simp_all

lemma consciousnessScore_conform {s : String} {n : ℕ}
    (h : specConsciousnessBand s = some n) : consciousnessScore s = n := by
  unfold specConsciousnessBand at h
  unfold consciousnessScore
  split_ifs at h ⊢ <;> simp_all

lemma determineClinicalRisk_conform (n : ℕ) :
    determineClinicalRisk n = specClinicalRisk n := by
  unfold determineClinicalRisk specClinicalRisk
  split_ifs <;> first | rfl | omega

/-- C1: for every vital-sign vector whose six values each lie inside a band
of the NEWS2 table of §4.1, `calculateEWS` returns exactly the per-vital
band scores of the table (exact at every boundary, since the bands are
predicates over all rationals), a total equal to the sum of the six
components, and the clinical risk High for totals ≥ 7, Medium for 5–6,
Low-Medium for 1–4, Low for 0. -/
theorem calculateEWS_conforms_to_news2_table (vs : VitalSigns)
    (r o t b h c : ℕ)
    (hr : specRespiratoryRateBand vs.respiratoryRate = some r)
    (ho : specOxygenSaturationBand vs.oxygenSaturation = some o)
    (ht : specTemperatureBand vs.temperature = some t)
    (hb : specSystolicBPBand vs.systolicBP = some b)
    (hh : specHeartRateBand vs.heartRate = some h)
    (hc : specConsciousnessBand vs.consciousness = some c) :
    calculateEWS vs =
      ⟨⟨r, o, t, b, h, c⟩, r + o + t + b + h + c,
        specClinicalRisk (r + o + t + b + h + c)⟩ := by
  have e1 := respiratoryRateScore_conform hr
  have e2 := oxygenSaturationScore_conform ho
  have e3 := temperatureScore_conform ht
  have e4 := systolicBPScore_conform hb
  have e5 := heartRateScore_conform hh
  have e6 := consciousnessScore_conform hc
  simp [calculateEWS, e1, e2, e3, e4, e5, e6, determineClinicalRisk_conform]

/-- Witness for C1 at the all-normal vector of scenario S1 of the
specification: every component is in the 0 band, the total is 0 and the
risk is Low. -/
theorem calculateEWS_conforms_witness :
    specRespiratoryRateBand 18 = some 0 ∧
    specOxygenSaturationBand 96 = some 0 ∧
    specTemperatureBand (mkRat 371 10) = some 0 ∧
    specSystolicBPBand 125 = some 0 ∧
    specHeartRateBand 72 = some 0 ∧
    specConsciousnessBand "Alert" = some 0 ∧
    calculateEWS ⟨18, 96, mkRat 371 10, 125, 72, "Alert"⟩ =
      ⟨⟨0, 0, 0, 0, 0, 0⟩, 0 + 0 + 0 + 0 + 0 + 0, specClinicalRisk (0 + 0 + 0 + 0 + 0 + 0)⟩ ∧
    specClinicalRisk 0 = "Low" :=
  ⟨by decide, by decide, by decide, by decide, by decide, by decide,
   calculateEWS_conforms_to_news2_table ⟨18, 96, mkRat 371 10, 125, 72, "Alert"⟩
     0 0 0 0 0 0 (by decide) (by decide) (by decide) (by decide) (by decide) (by decide),
   by decide⟩

/-- C3 (failing evaluation): respiratoryRate 8.5 and temperature 38.05 lie
in no band of the §4.1 table, yet `calculateEWS` raises nothing: it returns
normally, silently scoring the out-of-band vital 0. -/
theorem calculateEWS_gap_scores_zero :
    specRespiratoryRateBand (mkRat 17 2) = none ∧
    specTemperatureBand (mkRat 761 20) = none ∧
    calculateEWS ⟨mkRat 17 2, 96, mkRat 371 10, 125, 72, "Alert"⟩ =
      ⟨⟨0, 0, 0, 0, 0, 0⟩, 0, "Low"⟩ ∧
    calculateEWS ⟨18, 96, mkRat 761 20, 125, 72, "Alert"⟩ =
      ⟨⟨0, 0, 0, 0, 0, 0⟩, 0, "Low"⟩ := by
  refine ⟨by decide, by decide, by decide, by decide⟩

/-- One participating reading as handed to `determineConsensus` by
`attemptConsensus` of `routes/sensorData.js` (one latest reading per
node). -/
structure Reading where
  nodeId : String
  value : ℚ
  timestamp : ℤ
deriving DecidableEq

/-- Result object of `determineConsensus` of `consensus.js`: `null` fields
are `none`, the method strings are those of the source. -/
structure ConsensusResult where
  consensusValue : Option ℚ
  consensusTimestamp : Option ℤ
  validConsensus : Bool
  consensusMethod : Option String
deriving DecidableEq

/-- Size of the value group of `v`: how many readings carry exactly the
value `v`. -/
def countVal (l : List Reading) (v : ℚ) : ℕ :=
  (l.filter (fun r => decide (r.value = v))).length

/-- Majority-vote selection loop of `determineConsensus`: scan the value
groups, keeping the first group strictly larger than the best so far
(initially size 0).  Scanning the raw value list is equivalent to the JS
iteration over the distinct group keys, because a revisited value offers
its group size again and never strictly exceeds it, and a strict-majority
group is strictly larger than every other group in either order. -/
def selectMajority (l : List Reading) : Option ℚ × ℕ :=
  (l.map (fun r => r.value)).foldl
    (fun best v =>
      if countVal l v > best.2 then (some v, countVal l v) else best)
    (none, 0)

/-- Latest-reading reduction of `determineConsensus` (initial accumulator
the first reading, strict `>` comparison, so the first of several
latest-tied readings is kept). -/
def pickLatest (r0 : Reading) (l : List Reading) : Reading :=
  l.foldl (fun a c => if c.timestamp > a.timestamp then c else a) r0

/-- `Math.max(...timestamps)` over the readings; 0 for the empty list
(the source never takes that branch). -/
def maxTsOf : List Reading → ℤ
  | [] => 0
  | r :: rs => (r :: rs).foldl (fun a c => max a c.timestamp) r.timestamp

/-- `Math.min(...timestamps)` over the readings; 0 for the empty list. -/
def minTsOf : List Reading → ℤ
  | [] => 0
  | r :: rs => (r :: rs).foldl (fun a c => min a c.timestamp) r.timestamp

/-- Latest timestamp within the value group of `v` (the
`majorityTimestamp` reduction of `determineConsensus`); 0 if the group is
empty, which never happens for a selected majority value. -/
def groupMaxTs (l : List Reading) (v : ℚ) : ℤ :=
  match l.filter (fun r => decide (r.value = v)) with
  | [] => 0
  | g0 :: g =>
    g.foldl (fun a r => if r.timestamp > a then r.timestamp else a) g0.timestamp

/-- `readings.reduce((total, r) => total + r.value, 0)`. -/
def sumVals (l : List Reading) : ℚ :=
  l.foldl (fun s r => s + r.value) 0

/-- Mean of the reading values. -/
def meanVals (l : List Reading) : ℚ :=
  sumVals l / (l.length : ℚ)

/-- The JS check `Math.abs(v - avg) / avg <= 0.2`.  When `avg = 0` the JS
quotient is `Infinity` or `NaN` and the comparison is false; otherwise the
comparison is exact rational arithmetic (a negative quotient compares
true, exactly as in JS). -/
def withinThreshold (avg v : ℚ) : Bool :=
  if avg = 0 then false else decide (|v - avg| / avg ≤ mkRat 1 5)

/-- `determineConsensus` of `Data Collector Service/utils/consensus.js`
with the default options (`timestampThreshold = 5000` ms,
`valueThreshold = 0.2`). -/
def determineConsensus : List Reading → ConsensusResult
  | [] => ⟨none, none, false, none⟩
  | [r] => ⟨some r.value, some r.timestamp, true, some "single"⟩
  | r0 :: r1 :: rs =>
    let l := r0 :: r1 :: rs
    if maxTsOf l - minTsOf l > 5000 then
      let latest := pickLatest r0 l
      ⟨some latest.value, some latest.timestamp, true, some "latest"⟩
    else
      let sel := selectMajority l
      if 2 * sel.2 > l.length then
        ⟨sel.1, sel.1.map (fun v => groupMaxTs l v), true, some "majority"⟩
      else
        let avg := meanVals l
        if l.all (fun r => withinThreshold avg r.value) then
          ⟨some avg, some (maxTsOf l), true, some "average"⟩
        else
          ⟨some avg, some (maxTsOf l), false, some "none"⟩

/-- The admissible values of the persisted `consensusMethod` field in
`consensusDataSchema` of `models/sensorData.js`. -/
def consensusMethodEnum : List String :=
  ["majority", "latest", "average", "single"]

lemma countVal_cons (r : Reading) (t : List Reading) (v : ℚ) :
    countVal (r :: t) v = (if r.value = v then 1 else 0) + countVal t v := by
  by_cases h : r.value = v
  · simp [countVal, List.filter_cons, h]
    omega
  · simp [countVal, List.filter_cons, h]

lemma countVal_add_le {v w : ℚ} (hvw : v ≠ w) :
    ∀ l : List Reading, countVal l v + countVal l w ≤ l.length := by
  intro l
  induction l with
  | nil => simp [countVal]
  | cons r t ih =>
    rw [countVal_cons, countVal_cons]
    by_cases h1 : r.value = v
    · have h2 : ¬ r.value = w := fun hh => hvw (h1 ▸ hh ▸ rfl)
      rw [if_pos h1, if_neg h2]
      simp only [List.length_cons]
      omega
    · rw [if_neg h1]
      by_cases h2 : r.value = w
      · rw [if_pos h2]
        simp only [List.length_cons]
        omega
      · rw [if_neg h2]
        simp only [List.length_cons]
        omega

lemma exists_mem_of_countVal_pos :
    ∀ {l : List Reading} {v : ℚ}, 0 < countVal l v → ∃ r ∈ l, r.value = v := by
  intro l
  induction l with
  | nil => intro v h; simp [countVal] at h
  | cons r t ih =>
    intro v h
    by_cases hr : r.value = v
    · exact ⟨r, List.mem_cons_self r t, hr⟩
    · rw [countVal_cons, if_neg hr] at h
      have h2 : 0 < countVal t v := by omega
      obtain ⟨q, hq, hv⟩ := ih h2
      exact ⟨q, List.mem_cons_of_mem r hq, hv⟩

lemma majority_fold_const (l : List Reading) :
    ∀ (vs : List ℚ) (b : Option ℚ × ℕ), (∀ w ∈ vs, countVal l w ≤ b.2) →
      vs.foldl (fun best u =>
        if countVal l u > best.2 then (some u, countVal l u) else best) b = b := by
  intro vs
  induction vs with
  | nil => intro b _; rfl
  | cons w t ih =>
    intro b hb
    have hw := hb w (List.mem_cons_self w t)
    simp only [List.foldl_cons]
    rw [if_neg (by omega)]
    exact ih b fun u hu => hb u (List.mem_cons_of_mem w hu)

lemma majority_fold_select (l : List Reading) (v : ℚ) :
    ∀ (vs : List ℚ) (b : Option ℚ × ℕ), v ∈ vs →
      (∀ w : ℚ, w ≠ v → countVal l w < countVal l v) → b.2 < countVal l v →
      vs.foldl (fun best u =>
          if countVal l u > best.2 then (some u, countVal l u) else best) b
        = (some v, countVal l v) := by
  intro vs
  induction vs with
  | nil => intro b hv; cases hv
  | cons w t ih =>
    intro b hv hmax hb
    simp only [List.foldl_cons]
    by_cases hw : w = v
    · rw [hw]
      rw [if_pos (show countVal l v > b.2 by omega)]
      apply majority_fold_const
      intro u _
      by_cases huv : u = v
      · rw [huv]
      · exact le_of_lt (hmax u huv)
    · have hvt : v ∈ t := by
        rcases List.mem_cons.mp hv with h | h
        · exact absurd h.symm hw
        · exact h
      by_cases hc : countVal l w > b.2
      · rw [if_pos hc]
        exact ih (some w, countVal l w) hvt hmax (hmax w hw)
      · rw [if_neg hc]
        exact ih b hvt hmax hb

lemma majority_fold_shape (l : List Reading) :
    ∀ (vs : List ℚ) (b : Option ℚ × ℕ),
      vs.foldl (fun best u =>
          if countVal l u > best.2 then (some u, countVal l u) else best) b = b ∨
      ∃ w ∈ vs,
        vs.foldl (fun best u =>
          if countVal l u > best.2 then (some u, countVal l u) else best) b
          = (some w, countVal l w) := by
  intro vs
  induction vs with
  | nil => intro b; left; rfl
  | cons w t ih =>
    intro b
    simp only [List.foldl_cons]
    by_cases hc : countVal l w > b.2
    · rw [if_pos hc]
      rcases ih (some w, countVal l w) with h | ⟨u, hu, h⟩
      · right; exact ⟨w, List.mem_cons_self w t, h⟩
      · right; exact ⟨u, List.mem_cons_of_mem w hu, h⟩
    · rw [if_neg hc]
      rcases ih b with h | ⟨u, hu, h⟩
      · left; exact h
      · right; exact ⟨u, List.mem_cons_of_mem w hu, h⟩

lemma latest_fold_mem :
    ∀ (t : List Reading) (a : Reading),
      t.foldl (fun a c => if c.timestamp > a.timestamp then c else a) a = a ∨
      t.foldl (fun a c => if c.timestamp > a.timestamp then c else a) a ∈ t := by
  intro t
  induction t with
  | nil => intro a; left; rfl
  | cons c t ih =>
    intro a
    simp only [List.foldl_cons]
    by_cases h : c.timestamp > a.timestamp
    · rw [if_pos h]
      rcases ih c with h2 | h2
      · right; rw [h2]; exact List.mem_cons_self c t
      · right; exact List.mem_cons_of_mem c h2
    · rw [if_neg h]
      rcases ih a with h2 | h2
      · left; exact h2
      · right; exact List.mem_cons_of_mem c h2

lemma latest_fold_acc_le :
    ∀ (t : List Reading) (a : Reading),
      a.timestamp ≤
        (t.foldl (fun a c => if c.timestamp > a.timestamp then c else a) a).timestamp := by
  intro t
  induction t with
  | nil => intro a; exact le_refl _
  | cons c t ih =>
    intro a
    simp only [List.foldl_cons]
    by_cases h : c.timestamp > a.timestamp
    · rw [if_pos h]; exact le_of_lt (lt_of_lt_of_le h (ih c))
    · rw [if_neg h]; exact ih a

lemma latest_fold_mem_le :
    ∀ (t : List Reading) (a : Reading), ∀ r ∈ t,
      r.timestamp ≤
        (t.foldl (fun a c => if c.timestamp > a.timestamp then c else a) a).timestamp := by
  intro t
  induction t with
  | nil => intro a r hr; cases hr
  | cons c t ih =>
    intro a r hr
    simp only [List.foldl_cons]
    rcases List.mem_cons.mp hr with h | h
    · subst h
      by_cases hc : r.timestamp > a.timestamp
      · rw [if_pos hc]; exact latest_fold_acc_le t r
      · rw [if_neg hc]
        exact le_trans (by omega) (latest_fold_acc_le t a)
    · by_cases hc : c.timestamp > a.timestamp
      · rw [if_pos hc]; exact ih c r h
      · rw [if_neg hc]; exact ih a r h

lemma ts_fold_acc_le :
    ∀ (t : List Reading) (a : ℤ),
      a ≤ t.foldl (fun a r => if r.timestamp > a then r.timestamp else a) a := by
  intro t
  induction t with
  | nil => intro a; exact le_refl _
  | cons c t ih =>
    intro a
    simp only [List.foldl_cons]
    by_cases h : c.timestamp > a
    · rw [if_pos h]; exact le_of_lt (lt_of_lt_of_le h (ih c.timestamp))
    · rw [if_neg h]; exact ih a

lemma ts_fold_mem_le :
    ∀ (t : List Reading) (a : ℤ), ∀ r ∈ t,
      r.timestamp ≤ t.foldl (fun a r => if r.timestamp > a then r.timestamp else a) a := by
  intro t
  induction t with
  | nil => intro a r hr; cases hr
  | cons c t ih =>
    intro a r hr
    simp only [List.foldl_cons]
    rcases List.mem_cons.mp hr with h | h
    · subst h
      by_cases hc : r.timestamp > a
      · rw [if_pos hc]; exact ts_fold_acc_le t r.timestamp
      · rw [if_neg hc]; exact le_trans (by omega) (ts_fold_acc_le t a)
    · by_cases hc : c.timestamp > a
      · rw [if_pos hc]; exact ih c.timestamp r h
      · rw [if_neg hc]; exact ih a r h

lemma ts_fold_shape :
    ∀ (t : List Reading) (a : ℤ),
      t.foldl (fun a r => if r.timestamp > a then r.timestamp else a) a = a ∨
      ∃ r ∈ t,
        t.foldl (fun a r => if r.timestamp > a then r.timestamp else a) a
          = r.timestamp := by
  intro t
  induction t with
  | nil => intro a; left; rfl
  | cons c t ih =>
    intro a
    simp only [List.foldl_cons]
    by_cases h : c.timestamp > a
    · rw [if_pos h]
      rcases ih c.timestamp with h2 | ⟨r, hr, h2⟩
      · right; exact ⟨c, List.mem_cons_self c t, h2⟩
      · right; exact ⟨r, List.mem_cons_of_mem c hr, h2⟩
    · rw [if_neg h]
      rcases ih a with h2 | ⟨r, hr, h2⟩
      · left; exact h2
      · right; exact ⟨r, List.mem_cons_of_mem c hr, h2⟩

lemma no_majority_select_le {l : List Reading}
    (hnomaj : ∀ r ∈ l, 2 * countVal l r.value ≤ l.length) :
    2 * (selectMajority l).2 ≤ l.length := by
  rcases majority_fold_shape l (l.map (fun r => r.value)) (none, 0) with h | ⟨w, hw, h⟩
  · unfold selectMajority
    rw [h]
    simp
  · unfold selectMajority
    rw [h]
    obtain ⟨q, hq, hqv⟩ := List.mem_map.mp hw
    have hb := hnomaj q hq
    rw [hqv] at hb
    simpa using hb

lemma groupMaxTs_spec {l : List Reading} {v : ℚ} (hex : ∃ r ∈ l, r.value = v) :
    (∃ r ∈ l, r.value = v ∧ r.timestamp = groupMaxTs l v) ∧
    (∀ r ∈ l, r.value = v → r.timestamp ≤ groupMaxTs l v) := by
  obtain ⟨r, hr, hv⟩ := hex
  have hrf : r ∈ l.filter (fun r => decide (r.value = v)) :=
    List.mem_filter.mpr ⟨hr, by simp [hv]⟩
  have hmem : ∀ q ∈ l.filter (fun r => decide (r.value = v)), q ∈ l ∧ q.value = v := by
    intro q hq
    have := List.mem_filter.mp hq
    exact ⟨this.1, by simpa using this.2⟩
  have hmem2 : ∀ q ∈ l, q.value = v → q ∈ l.filter (fun r => decide (r.value = v)) := by
    intro q hq hqv
    exact List.mem_filter.mpr ⟨hq, by simp [hqv]⟩
  unfold groupMaxTs
  cases hg : l.filter (fun r => decide (r.value = v)) with
  | nil => rw [hg] at hrf; cases hrf
  | cons g0 g =>
    constructor
    · rcases ts_fold_shape g g0.timestamp with h | ⟨q, hq, h⟩
      · have := hmem g0 (hg ▸ List.mem_cons_self g0 g)
        exact ⟨g0, this.1, this.2, h.symm⟩
      · have := hmem q (hg ▸ List.mem_cons_of_mem g0 hq)
        exact ⟨q, this.1, this.2, h.symm⟩
    · intro q hq hqv
      have hqf := hmem2 q hq hqv
      rw [hg] at hqf
      rcases List.mem_cons.mp hqf with h | h
      · subst h; exact ts_fold_acc_le g q.timestamp
      · exact ts_fold_mem_le g g0.timestamp q h

/-- C4: for a reading set from at least two distinct nodes, if the
timestamp range exceeds 5 s the consensus takes the latest reading's value
and timestamp with method `latest` and a valid flag; otherwise any value
held by more than half of the readings becomes the consensus value with
method `majority`, a valid flag, and the latest timestamp within the
majority group. -/
theorem determineConsensus_latest_and_majority (l : List Reading)
    (hlen : 2 ≤ l.length) (hnodes : (l.map (fun r => r.nodeId)).Nodup) :
    (5000 < maxTsOf l - minTsOf l →
      ∃ r ∈ l, (∀ q ∈ l, q.timestamp ≤ r.timestamp) ∧
        determineConsensus l =
          ⟨some r.value, some r.timestamp, true, some "latest"⟩) ∧
    (maxTsOf l - minTsOf l ≤ 5000 →
      ∀ v : ℚ, l.length < 2 * countVal l v →
        ∃ tm : ℤ, (∃ r ∈ l, r.value = v ∧ r.timestamp = tm) ∧
          (∀ q ∈ l, q.value = v → q.timestamp ≤ tm) ∧
          determineConsensus l =
            ⟨some v, some tm, true, some "majority"⟩) := by
  cases l with
  | nil => simp at hlen
  | cons r0 l1 =>
    cases l1 with
    | nil => simp at hlen
    | cons r1 rs =>
      constructor
      · intro h5
        refine ⟨pickLatest r0 (r0 :: r1 :: rs), ?_, ?_, ?_⟩
        · rcases latest_fold_mem (r0 :: r1 :: rs) r0 with h | h
          · unfold pickLatest
            rw [h]
            exact List.mem_cons_self r0 (r1 :: rs)
          · exact h
        · intro q hq
          exact latest_fold_mem_le (r0 :: r1 :: rs) r0 q hq
        · simp only [determineConsensus]
          rw [if_pos h5]
      · intro hwin v hv
        have hub : ∀ w : ℚ, w ≠ v →
            countVal (r0 :: r1 :: rs) w < countVal (r0 :: r1 :: rs) v := by
          intro w hwv
          have hd := countVal_add_le (Ne.symm hwv) (r0 :: r1 :: rs)
          omega
        have hcv : 0 < countVal (r0 :: r1 :: rs) v := by omega
        obtain ⟨rv, hrv, hrvval⟩ := exists_mem_of_countVal_pos hcv
        have hvmem : v ∈ (r0 :: r1 :: rs).map (fun r => r.value) :=
          List.mem_map.mpr ⟨rv, hrv, hrvval⟩
        have hsel : selectMajority (r0 :: r1 :: rs)
            = (some v, countVal (r0 :: r1 :: rs) v) := by
          unfold selectMajority
          exact majority_fold_select (r0 :: r1 :: rs) v
            ((r0 :: r1 :: rs).map (fun r => r.value)) (none, 0) hvmem hub (by omega)
        have hspec := groupMaxTs_spec ⟨rv, hrv, hrvval⟩
        refine ⟨groupMaxTs (r0 :: r1 :: rs) v, hspec.1, hspec.2, ?_⟩
        simp only [determineConsensus]
        rw [if_neg (by omega :
          ¬ 5000 < maxTsOf (r0 :: r1 :: rs) - minTsOf (r0 :: r1 :: rs))]
        rw [hsel]
        rw [if_pos (show 2 * (Prod.snd (some v, countVal (r0 :: r1 :: rs) v))
          > (r0 :: r1 :: rs).length from by simpa using hv)]
        simp

/-- Witness for C4 at the two-node heart-rate agreement of scenario S2:
both readings carry 72 within 1 s, so 72 wins the majority vote with the
later timestamp. -/
theorem determineConsensus_majority_witness :
    ∃ tm : ℤ,
      (∃ r ∈ ([⟨"node-1", 72, 0⟩, ⟨"node-2", 72, 1000⟩] : List Reading),
        r.value = 72 ∧ r.timestamp = tm) ∧
      (∀ q ∈ ([⟨"node-1", 72, 0⟩, ⟨"node-2", 72, 1000⟩] : List Reading),
        q.value = 72 → q.timestamp ≤ tm) ∧
      determineConsensus [⟨"node-1", 72, 0⟩, ⟨"node-2", 72, 1000⟩] =
        ⟨some 72, some tm, true, some "majority"⟩ :=
  (determineConsensus_latest_and_majority
      [⟨"node-1", 72, 0⟩, ⟨"node-2", 72, 1000⟩]
      (by decide) (by decide)).2 (by decide) 72 (by decide)

/-- C5: for a reading set from at least two distinct nodes within the 5 s
window and with no majority value, the consensus value is the average of
the values; the result is valid with method `average` when every value
passes the 20 % relative-deviation check, and invalid with method `none`
otherwise — with the average still reported. -/
theorem determineConsensus_average_fallback (l : List Reading)
    (hlen : 2 ≤ l.length) (hnodes : (l.map (fun r => r.nodeId)).Nodup)
    (hwin : maxTsOf l - minTsOf l ≤ 5000)
    (hnomaj : ∀ r ∈ l, 2 * countVal l r.value ≤ l.length) :
    (l.all (fun r => withinThreshold (meanVals l) r.value) = true →
      determineConsensus l =
        ⟨some (meanVals l), some (maxTsOf l), true, some "average"⟩) ∧
    (l.all (fun r => withinThreshold (meanVals l) r.value) = false →
      determineConsensus l =
        ⟨some (meanVals l), some (maxTsOf l), false, some "none"⟩) := by
  cases l with
  | nil => simp at hlen
  | cons r0 l1 =>
    cases l1 with
    | nil => simp at hlen
    | cons r1 rs =>
      have hsel := no_majority_select_le hnomaj
      constructor
      · intro hall
        simp only [determineConsensus]
        rw [if_neg (by omega :
          ¬ 5000 < maxTsOf (r0 :: r1 :: rs) - minTsOf (r0 :: r1 :: rs))]
        rw [if_neg (by omega :
          ¬ 2 * (selectMajority (r0 :: r1 :: rs)).2 > (r0 :: r1 :: rs).length)]
        rw [hall]
        simp
      · intro hall
        simp only [determineConsensus]
        rw [if_neg (by omega :
          ¬ 5000 < maxTsOf (r0 :: r1 :: rs) - minTsOf (r0 :: r1 :: rs))]
        rw [if_neg (by omega :
          ¬ 2 * (selectMajority (r0 :: r1 :: rs)).2 > (r0 :: r1 :: rs).length)]
        rw [hall]
        simp

/-- Witness for C5 at two disagreeing readings 10 and 100 in a 1 s window:
no majority, the average 55 fails the 20 % check at both values, and the
invalid `none` outcome still carries the average and the latest
timestamp. -/
theorem determineConsensus_average_fallback_witness :
    determineConsensus [⟨"node-1", 10, 0⟩, ⟨"node-2", 100, 1000⟩] =
      ⟨some (meanVals [⟨"node-1", 10, 0⟩, ⟨"node-2", 100, 1000⟩]),
        some (maxTsOf [⟨"node-1", 10, 0⟩, ⟨"node-2", 100, 1000⟩]),
        false, some "none"⟩ ∧
    meanVals [⟨"node-1", 10, 0⟩, ⟨"node-2", 100, 1000⟩] = 55 ∧
    maxTsOf [⟨"node-1", 10, 0⟩, ⟨"node-2", 100, 1000⟩] = 1000 :=
  ⟨(determineConsensus_average_fallback
      [⟨"node-1", 10, 0⟩, ⟨"node-2", 100, 1000⟩]
      (by decide) (by decide) (by decide) (by decide)).2
      (by norm_num [withinThreshold, meanVals, sumVals, Rat.mkRat_eq_div]),
    by norm_num [meanVals, sumVals], by decide⟩

/-- C9 (failing evaluation): on two disagreeing readings the engine emits
the invalid outcome with `consensusMethod` the string `none`,
`validConsensus` false and `consensusValue` still set to the average; but
the persisted `consensusMethod` enum of `consensusDataSchema` does not
admit the string `none`, so this outcome cannot be stored. -/
theorem consensus_none_outcome_not_persistable :
    (determineConsensus [⟨"node-1", 10, 0⟩, ⟨"node-2", 100, 0⟩]).consensusMethod
        = some "none" ∧
    (determineConsensus [⟨"node-1", 10, 0⟩, ⟨"node-2", 100, 0⟩]).validConsensus
        = false ∧
    (determineConsensus [⟨"node-1", 10, 0⟩, ⟨"node-2", 100, 0⟩]).consensusValue
        = some 55 ∧
    ¬ "none" ∈ consensusMethodEnum := by
  have h : determineConsensus [⟨"node-1", 10, 0⟩, ⟨"node-2", 100, 0⟩] =
      ⟨some 55, some 0, false, some "none"⟩ := by
    norm_num [determineConsensus, meanVals, sumVals, withinThreshold, maxTsOf,
      minTsOf, selectMajority, countVal, Rat.mkRat_eq_div]
  exact ⟨by rw [h], by rw [h], by rw [h], by decide⟩

/-- One `{timestamp, score, clinicalRisk}` entry of `scoreHistory`. -/
structure ScoreHistEntry where
  timestamp : ℤ
  score : ℤ
  clinicalRisk : String
deriving DecidableEq

/-- One participating per-node score inside `EWSConsensus.nodeScores`, as
assembled by `attemptConsensus` of the EWS command handler. -/
structure NodeScore where
  nodeId : String
  totalScore : ℤ
  timestamp : ℤ
  vitalSigns : VitalSigns
  scoreComponents : ScoreComponents
  clinicalRisk : String
deriving DecidableEq

/-- The persisted `EWSConsensus` record as consumed by `updateReadModel`
and `determineAlertType`. -/
structure EWSConsensusRec where
  patientId : String
  nodeScores : List NodeScore
  consensusScore : ℤ
  clinicalRisk : String
  consensusTimestamp : ℤ
  validConsensus : Bool
  consensusMethod : String
deriving DecidableEq

/-- The per-patient CQRS read model (`EWSReadModel` of `models/ews.js`). -/
structure EWSReadModel where
  patientId : String
  currentScore : ℤ
  clinicalRisk : String
  vitalSigns : VitalSigns
  scoreComponents : ScoreComponents
  scoreHistory : List ScoreHistEntry
  lastUpdated : ℤ
deriving DecidableEq

/-- `nodeScores.find(node => node.totalScore === consensusScore) || nodeScores[0]`:
the participating node whose total equals the consensus score, else the
first node; `none` when `nodeScores` is empty, where the JS throws a
`TypeError`. -/
def pickConsensusNode (c : EWSConsensusRec) : Option NodeScore :=
  match c.nodeScores.find? (fun nd => decide (nd.totalScore = c.consensusScore)) with
  | some nd => some nd
  | none => c.nodeScores.head?

/-- The `scoreHistory` bound of `updateReadModel`: when the pushed history
exceeds 100 entries keep the last 100 (`slice(-100)`). -/
def truncHist (h : List ScoreHistEntry) : List ScoreHistEntry :=
  if 100 < h.length then h.drop (h.length - 100) else h

/-- `updateReadModel` of the EWS command handler, as a pure update:
`existing` is the read model currently stored for the patient (`none` if
absent), the result is the model that gets saved (`none` models the JS
`TypeError` on an empty `nodeScores` when the vitals lookup runs). -/
def updateReadModel (existing : Option EWSReadModel) (c : EWSConsensusRec) :
    Option EWSReadModel :=
  match existing with
  | none =>
    match pickConsensusNode c with
    | none => none
    | some nd =>
      some
        { patientId := c.patientId
          currentScore := c.consensusScore
          clinicalRisk := c.clinicalRisk
          vitalSigns := nd.vitalSigns
          scoreComponents := nd.scoreComponents
          scoreHistory := [⟨c.consensusTimestamp, c.consensusScore, c.clinicalRisk⟩]
          lastUpdated := c.consensusTimestamp }
  | some rm =>
    if c.validConsensus then
      match pickConsensusNode c with
      | none => none
      | some nd =>
        some
          { rm with
            currentScore := c.consensusScore
            clinicalRisk := c.clinicalRisk
            lastUpdated := c.consensusTimestamp
            vitalSigns := nd.vitalSigns
            scoreComponents := nd.scoreComponents
            scoreHistory := truncHist (rm.scoreHistory ++
              [⟨c.consensusTimestamp, c.consensusScore, c.clinicalRisk⟩]) }
    else
      some
        { rm with
          currentScore := c.consensusScore
          clinicalRisk := c.clinicalRisk
          lastUpdated := c.consensusTimestamp
          scoreHistory := truncHist (rm.scoreHistory ++
            [⟨c.consensusTimestamp, c.consensusScore, c.clinicalRisk⟩]) }

/-- Non-decreasing-by-timestamp check on a score history. -/
def histSorted : List ScoreHistEntry → Bool
  | [] => true
  | [_] => true
  | a :: b :: t => (decide (a.timestamp ≤ b.timestamp)) && histSorted (b :: t)

lemma histSorted_tail {a : ScoreHistEntry} {t : List ScoreHistEntry}
    (h : histSorted (a :: t) = true) : histSorted t = true := by
  cases t with
  | nil => rfl
  | cons b t2 =>
    unfold histSorted at h
    rw [Bool.and_eq_true] at h
    exact h.2

lemma histSorted_drop :
    ∀ (k : ℕ) (h : List ScoreHistEntry), histSorted h = true →
      histSorted (h.drop k) = true := by
  intro k
  induction k with
  | zero => intro h hs; simpa using hs
  | succ k ih =>
    intro h hs
    cases h with
    | nil => rfl
    | cons a t => exact ih t (histSorted_tail hs)

lemma histSorted_append_last {x : ScoreHistEntry} :
    ∀ {h : List ScoreHistEntry}, histSorted h = true →
      (∀ e ∈ h, e.timestamp ≤ x.timestamp) → histSorted (h ++ [x]) = true := by
  intro h
  induction h with
  | nil => intro _ _; rfl
  | cons a t ih =>
    intro hs hle
    cases t with
    | nil =>
      have := hle a (List.mem_cons_self a [])
      simp [histSorted, this]
    | cons b t2 =>
      unfold histSorted at hs
      rw [Bool.and_eq_true] at hs
      obtain ⟨hab, hrest⟩ := hs
      have htail := ih hrest fun e he => hle e (List.mem_cons_of_mem a he)
      show ((decide (a.timestamp ≤ b.timestamp)) &&
        histSorted ((b :: t2) ++ [x])) = true
      rw [hab, htail]
      rfl

lemma truncHist_length_le (h : List ScoreHistEntry) :
    (truncHist h).length ≤ 100 := by
  unfold truncHist
  split_ifs with hl
  · simp only [List.length_drop]
    omega
  · omega

lemma truncHist_sorted {h : List ScoreHistEntry} (hs : histSorted h = true) :
    histSorted (truncHist h) = true := by
  unfold truncHist
  split_ifs with hl
  · exact histSorted_drop _ h hs
  · exact hs

/-- Concrete consensus record used to evaluate the projector twice. -/
def idemConsensus : EWSConsensusRec :=
  { patientId := "P1"
    nodeScores := [⟨"node-1", 5, 0, ⟨20, 95, 37, 120, 95, "Alert"⟩,
      ⟨0, 1, 0, 0, 1, 0⟩, "Medium"⟩]
    consensusScore := 5
    clinicalRisk := "Medium"
    consensusTimestamp := 0
    validConsensus := true
    consensusMethod := "single" }

/-- C2 (failing evaluation): `updateReadModel` keeps no note of which
consensus it has applied; re-applying the very same consensus record to
the model it produced appends a second, identical `scoreHistory` entry, so
the projector is not idempotent. -/
theorem updateReadModel_not_idempotent :
    updateReadModel (updateReadModel none idemConsensus) idemConsensus ≠
      updateReadModel none idemConsensus ∧
    (updateReadModel none idemConsensus).map
      (fun m => m.scoreHistory.length) = some 1 ∧
    (updateReadModel (updateReadModel none idemConsensus) idemConsensus).map
      (fun m => m.scoreHistory.length) = some 2 := by
  refine ⟨by decide, by decide, by decide⟩

/-- C7: applying a consensus with `validConsensus = false` to an existing
read model preserves `vitalSigns`, `scoreComponents` and `patientId`;
only `currentScore`, `clinicalRisk`, `lastUpdated` and `scoreHistory`
change (score and risk copied from the consensus, the new history entry
appended and the history truncated to 100). -/
theorem updateReadModel_invalid_preserves_vitals (rm : EWSReadModel)
    (c : EWSConsensusRec) (hinv : c.validConsensus = false) :
    updateReadModel (some rm) c =
      some
        { patientId := rm.patientId
          currentScore := c.consensusScore
          clinicalRisk := c.clinicalRisk
          vitalSigns := rm.vitalSigns
          scoreComponents := rm.scoreComponents
          scoreHistory := truncHist (rm.scoreHistory ++
            [⟨c.consensusTimestamp, c.consensusScore, c.clinicalRisk⟩])
          lastUpdated := c.consensusTimestamp } := by
  simp [updateReadModel, hinv]

/-- Witness for C7: an invalid consensus applied to a concrete model
carries the old vitals and components into the result unchanged. -/
theorem updateReadModel_invalid_preserves_vitals_witness :
    updateReadModel
        (some ⟨"P2", 4, "Low-Medium", ⟨20, 95, 37, 120, 80, "Alert"⟩,
          ⟨0, 1, 0, 0, 0, 0⟩, [⟨0, 4, "Low-Medium"⟩], 0⟩)
        ⟨"P2", [], 6, "Medium", 1000, false, "none"⟩ =
      some
        { patientId := "P2"
          currentScore := 6
          clinicalRisk := "Medium"
          vitalSigns := ⟨20, 95, 37, 120, 80, "Alert"⟩
          scoreComponents := ⟨0, 1, 0, 0, 0, 0⟩
          scoreHistory := truncHist ([⟨0, 4, "Low-Medium"⟩] ++
            [⟨1000, 6, "Medium"⟩])
          lastUpdated := 1000 } ∧
    truncHist ([⟨0, 4, "Low-Medium"⟩] ++ [⟨1000, 6, "Medium"⟩]) =
      [⟨0, 4, "Low-Medium"⟩, ⟨1000, 6, "Medium"⟩] :=
  ⟨updateReadModel_invalid_preserves_vitals
      ⟨"P2", 4, "Low-Medium", ⟨20, 95, 37, 120, 80, "Alert"⟩,
        ⟨0, 1, 0, 0, 0, 0⟩, [⟨0, 4, "Low-Medium"⟩], 0⟩
      ⟨"P2", [], 6, "Medium", 1000, false, "none"⟩ rfl,
    by decide⟩

/-- C8 (counterexample): applying a consensus whose `consensusTimestamp`
is older than the stored history's last entry appends out of order, so the
resulting history is not sorted non-decreasing by timestamp. -/
theorem updateReadModel_history_unsorted_out_of_order :
    histSorted [⟨1000, 2, "Low-Medium"⟩] = true ∧
    (updateReadModel
        (some ⟨"P3", 2, "Low-Medium", ⟨20, 95, 37, 120, 80, "Alert"⟩,
          ⟨0, 1, 0, 0, 0, 0⟩, [⟨1000, 2, "Low-Medium"⟩], 1000⟩)
        ⟨"P3", [], 3, "Low-Medium", 500, false, "none"⟩).map
      (fun m => histSorted m.scoreHistory) = some false ∧
    (updateReadModel
        (some ⟨"P3", 2, "Low-Medium", ⟨20, 95, 37, 120, 80, "Alert"⟩,
          ⟨0, 1, 0, 0, 0, 0⟩, [⟨1000, 2, "Low-Medium"⟩], 1000⟩)
        ⟨"P3", [], 3, "Low-Medium", 500, false, "none"⟩).map
      (fun m => m.scoreHistory.length) = some 2 := by
  refine ⟨by decide, by decide, by decide⟩

/-- C8 (amended): after every successful application the score history has
at most 100 entries; and it is sorted non-decreasing by timestamp whenever
applications arrive in non-decreasing `consensusTimestamp` order — a
freshly created model is sorted, and an update preserves sortedness when
the incoming consensus timestamp is at least every stored entry's
timestamp. -/
theorem updateReadModel_history_bound_and_sorted
    (existing : Option EWSReadModel) (c : EWSConsensusRec) (m : EWSReadModel)
    (hm : updateReadModel existing c = some m) :
    m.scoreHistory.length ≤ 100 ∧
    (existing = none → histSorted m.scoreHistory = true) ∧
    (∀ rm, existing = some rm → histSorted rm.scoreHistory = true →
      (∀ e ∈ rm.scoreHistory, e.timestamp ≤ c.consensusTimestamp) →
      histSorted m.scoreHistory = true) := by
  cases existing with
  | none =>
    cases hpick : pickConsensusNode c with
    | none => simp [updateReadModel, hpick] at hm
    | some nd =>
      simp [updateReadModel, hpick] at hm
      refine ⟨?_, ?_, ?_⟩
      · rw [← hm]; simp
      · intro _; rw [← hm]; rfl
      · intro rm h; cases h
  | some rm0 =>
    by_cases hv : c.validConsensus
    · cases hpick : pickConsensusNode c with
      | none => simp [updateReadModel, hv, hpick] at hm
      | some nd =>
        simp [updateReadModel, hv, hpick] at hm
        refine ⟨?_, ?_, ?_⟩
        · rw [← hm]; exact truncHist_length_le _
        · intro h; cases h
        · intro rm h hs hle
          obtain rfl : rm0 = rm := by injection h
          rw [← hm]
          exact truncHist_sorted (histSorted_append_last hs
            (fun e he => by simpa using hle e he))
    · simp [updateReadModel, hv] at hm
      refine ⟨?_, ?_, ?_⟩
      · rw [← hm]; exact truncHist_length_le _
      · intro h; cases h
      · intro rm h hs hle
        obtain rfl : rm0 = rm := by injection h
        rw [← hm]
        exact truncHist_sorted (histSorted_append_last hs
          (fun e he => by simpa using hle e he))

/-- Witness for the amended C8 at a concrete in-order application: one
stored entry at timestamp 0, incoming consensus at 1000; the result stays
sorted and within the bound. -/
theorem updateReadModel_history_bound_and_sorted_witness :
    (updateReadModel
        (some ⟨"P4", 2, "Low-Medium", ⟨20, 95, 37, 120, 80, "Alert"⟩,
          ⟨0, 1, 0, 0, 0, 0⟩, [⟨0, 2, "Low-Medium"⟩], 0⟩)
        ⟨"P4", [], 3, "Low-Medium", 1000, false, "none"⟩ =
      some ⟨"P4", 3, "Low-Medium", ⟨20, 95, 37, 120, 80, "Alert"⟩,
        ⟨0, 1, 0, 0, 0, 0⟩,
        [⟨0, 2, "Low-Medium"⟩, ⟨1000, 3, "Low-Medium"⟩], 1000⟩) ∧
    ([⟨0, 2, "Low-Medium"⟩, ⟨1000, 3, "Low-Medium"⟩] :
        List ScoreHistEntry).length ≤ 100 ∧
    histSorted [⟨0, 2, "Low-Medium"⟩, ⟨1000, 3, "Low-Medium"⟩] = true :=
  ⟨by decide,
    (updateReadModel_history_bound_and_sorted
      (some ⟨"P4", 2, "Low-Medium", ⟨20, 95, 37, 120, 80, "Alert"⟩,
        ⟨0, 1, 0, 0, 0, 0⟩, [⟨0, 2, "Low-Medium"⟩], 0⟩)
      ⟨"P4", [], 3, "Low-Medium", 1000, false, "none"⟩
      ⟨"P4", 3, "Low-Medium", ⟨20, 95, 37, 120, 80, "Alert"⟩,
        ⟨0, 1, 0, 0, 0, 0⟩,
        [⟨0, 2, "Low-Medium"⟩, ⟨1000, 3, "Low-Medium"⟩], 1000⟩
      (by decide)).1,
    (updateReadModel_history_bound_and_sorted
      (some ⟨"P4", 2, "Low-Medium", ⟨20, 95, 37, 120, 80, "Alert"⟩,
        ⟨0, 1, 0, 0, 0, 0⟩, [⟨0, 2, "Low-Medium"⟩], 0⟩)
      ⟨"P4", [], 3, "Low-Medium", 1000, false, "none"⟩
      ⟨"P4", 3, "Low-Medium", ⟨20, 95, 37, 120, 80, "Alert"⟩,
        ⟨0, 1, 0, 0, 0, 0⟩,
        [⟨0, 2, "Low-Medium"⟩, ⟨1000, 3, "Low-Medium"⟩], 1000⟩
      (by decide)).2.2
      ⟨"P4", 2, "Low-Medium", ⟨20, 95, 37, 120, 80, "Alert"⟩,
        ⟨0, 1, 0, 0, 0, 0⟩, [⟨0, 2, "Low-Medium"⟩], 0⟩
      rfl (by decide) (by decide)⟩

/-- Alert classification record returned by `determineAlertType`; the
no-alert case carries `null` fields. -/
structure AlertInfo where
  requiresAlert : Bool
  alertType : Option String
  alertSeverity : Option String
  message : Option String
deriving DecidableEq

/-- `determineAlertType` of `EWS Service/services/alertService.js`. -/
def determineAlertType (c : EWSConsensusRec) : AlertInfo :=
  if c.validConsensus = false then
    { requiresAlert := true
      alertType := some "EWS_DATA_INCONSISTENCY"
      alertSeverity := some "MEDIUM"
      message := some "Inconsistent EWS scores detected, requires clinical review" }
  else if 7 ≤ c.consensusScore then
    { requiresAlert := true
      alertType := some "EWS_CRITICAL"
      alertSeverity := some "HIGH"
      message := some ("Critical EWS score (" ++ toString c.consensusScore ++
        ") - Immediate medical attention required") }
  else if 5 ≤ c.consensusScore ∧ c.consensusScore ≤ 6 then
    { requiresAlert := true
      alertType := some "EWS_URGENT"
      alertSeverity := some "MEDIUM"
      message := some ("Urgent EWS score (" ++ toString c.consensusScore ++
        ") - Prompt medical attention required") }
  else if 3 ≤ c.consensusScore ∧ c.consensusScore ≤ 4 then
    { requiresAlert := true
      alertType := some "EWS_ELEVATED"
      alertSeverity := some "LOW"
      message := some ("Elevated EWS score (" ++ toString c.consensusScore ++
        ") - Monitor patient closely") }
  else
    { requiresAlert := false, alertType := none,
      alertSeverity := none, message := none }

/-- The alert path of the pipeline for one stored ScoreConsensus: the gate
`consensusScore >= 5 || !validConsensus` of `attemptConsensus`, then the
`requiresAlert` check of `processEWSAlert`; `some` is the single alert
record sent to the alert engine, `none` means no alert. -/
def pipelineAlert (c : EWSConsensusRec) : Option AlertInfo :=
  if 5 ≤ c.consensusScore ∨ c.validConsensus = false then
    (if (determineAlertType c).requiresAlert then some (determineAlertType c)
     else none)
  else none

lemma determineAlertType_requires_of_gate {c : EWSConsensusRec}
    (h : 5 ≤ c.consensusScore ∨ c.validConsensus = false) :
    (determineAlertType c).requiresAlert = true := by
  unfold determineAlertType
  split_ifs with h1 h2 h3 h4
  · rfl
  · rfl
  · rfl
  · rfl
  · rcases h with h5 | hinv
    · exfalso
      simp only [not_and, not_le] at h2 h3 h4
      omega
    · exact absurd hinv h1

/-- C6 (counterexample): a valid consensus with score 3 satisfies the
claimed alert condition (invalid or score ≥ 3) and `determineAlertType`
itself would classify it EWS_ELEVATED, but the pipeline gate in
`attemptConsensus` fires only on score ≥ 5 or invalid consensus, so no
alert is produced. -/
theorem pipelineAlert_misses_elevated_band :
    ((⟨"P5", [], 3, "Low-Medium", 0, true, "majority"⟩ :
        EWSConsensusRec).validConsensus = false ∨
      3 ≤ (⟨"P5", [], 3, "Low-Medium", 0, true, "majority"⟩ :
        EWSConsensusRec).consensusScore) ∧
    (determineAlertType
        ⟨"P5", [], 3, "Low-Medium", 0, true, "majority"⟩).alertType =
      some "EWS_ELEVATED" ∧
    pipelineAlert ⟨"P5", [], 3, "Low-Medium", 0, true, "majority"⟩ = none := by
  refine ⟨by decide, by decide, by decide⟩

/-- C6 (amended): the pipeline produces an alert iff the consensus is
invalid or its score is at least 5 — at most one alert per consensus —
with the mapping invalid → EWS_DATA_INCONSISTENCY/MEDIUM, valid score ≥ 7
→ EWS_CRITICAL/HIGH, valid 5–6 → EWS_URGENT/MEDIUM; every valid score
below 5, including the EWS_ELEVATED band 3–4 of `determineAlertType`,
produces no alert. -/
theorem pipelineAlert_classification (c : EWSConsensusRec) :
    ((pipelineAlert c).isSome ↔
      (c.validConsensus = false ∨ 5 ≤ c.consensusScore)) ∧
    (c.validConsensus = false →
      (pipelineAlert c).map (fun a => (a.alertType, a.alertSeverity)) =
        some (some "EWS_DATA_INCONSISTENCY", some "MEDIUM")) ∧
    (c.validConsensus = true → 7 ≤ c.consensusScore →
      (pipelineAlert c).map (fun a => (a.alertType, a.alertSeverity)) =
        some (some "EWS_CRITICAL", some "HIGH")) ∧
    (c.validConsensus = true → 5 ≤ c.consensusScore → c.consensusScore ≤ 6 →
      (pipelineAlert c).map (fun a => (a.alertType, a.alertSeverity)) =
        some (some "EWS_URGENT", some "MEDIUM")) ∧
    (c.validConsensus = true → c.consensusScore ≤ 4 →
      pipelineAlert c = none) := by
  refine ⟨?_, ?_, ?_, ?_, ?_⟩
  · unfold pipelineAlert
    by_cases hgate : 5 ≤ c.consensusScore ∨ c.validConsensus = false
    · rw [if_pos hgate, if_pos (determineAlertType_requires_of_gate hgate)]
      simp only [Option.isSome_some, true_iff]
      exact hgate.symm
    · rw [if_neg hgate]
      simp only [Option.isSome_none, Bool.false_eq_true, false_iff]
      intro hcl
      exact hgate hcl.symm
  · intro hinv
    have hgate : 5 ≤ c.consensusScore ∨ c.validConsensus = false := Or.inr hinv
    unfold pipelineAlert
    rw [if_pos hgate, if_pos (determineAlertType_requires_of_gate hgate)]
    simp [determineAlertType, hinv]
  · intro hvalid h7
    have hgate : 5 ≤ c.consensusScore ∨ c.validConsensus = false :=
      Or.inl (by omega)
    unfold pipelineAlert
    rw [if_pos hgate, if_pos (determineAlertType_requires_of_gate hgate)]
    simp [determineAlertType, hvalid, h7]
  · intro hvalid h5 h6
    have hgate : 5 ≤ c.consensusScore ∨ c.validConsensus = false := Or.inl h5
    unfold pipelineAlert
    rw [if_pos hgate, if_pos (determineAlertType_requires_of_gate hgate)]
    have h7 : ¬ 7 ≤ c.consensusScore := by omega
    simp [determineAlertType, hvalid, h7, h5, h6]
  · intro hvalid h4
    unfold pipelineAlert
    rw [if_neg ?_]
    rintro (h | h)
    · omega
    · rw [hvalid] at h
      cases h

/-- Witness for the amended C6 at an invalid consensus of score 6: the
pipeline sends exactly one EWS_DATA_INCONSISTENCY alert of severity
MEDIUM. -/
theorem pipelineAlert_classification_witness :
    (pipelineAlert ⟨"P6", [], 6, "Medium", 0, false, "none"⟩).map
      (fun a => (a.alertType, a.alertSeverity)) =
      some (some "EWS_DATA_INCONSISTENCY", some "MEDIUM") :=
  (pipelineAlert_classification
    ⟨"P6", [], 6, "Medium", 0, false, "none"⟩).2.1 rfl

/-- A JavaScript value reaching `mapConsciousnessValue` of
`ewsHelper.js`: a number or a string. -/
inductive JSVal where
  | num : ℚ → JSVal
  | str : String → JSVal
deriving DecidableEq

/-- Truncation toward zero, as `parseInt` applies to a number rendered in
plain decimal notation (`Int.tdiv` truncates toward zero exactly as JS
does; numbers large enough to render in exponent notation are outside the
modelled range). -/
def jsTrunc (q : ℚ) : ℤ :=
  Int.tdiv q.num (q.den : ℤ)

/-- Leading decimal digits of a character list, `none` when there are
none (`parseInt` yields `NaN`). -/
def leadingNat (cs : List Char) : Option ℕ :=
  let ds := cs.takeWhile (fun ch => ch.isDigit)
  if ds.isEmpty then none
  else some (ds.foldl (fun acc ch => 10 * acc + (ch.toNat - 48)) 0)

/-- `parseInt` on a string: skip leading spaces, optional sign, then the
leading run of decimal digits; `none` is `NaN`. -/
def parseIntStr (s : String) : Option ℤ :=
  match s.toList.dropWhile (fun ch => ch = ' ') with
  | '-' :: rest => (leadingNat rest).map (fun n => -(n : ℤ))
  | '+' :: rest => (leadingNat rest).map (fun n => (n : ℤ))
  | cs => (leadingNat cs).map (fun n => (n : ℤ))

/-- `parseInt(value, 10)` as used by `mapConsciousnessValue`: an integer
or `NaN` (`none`). -/
def parseIntJS : JSVal → Option ℤ
  | .num q => some (jsTrunc q)
  | .str s => parseIntStr s

/-- `CONSCIOUSNESS_MAP`: 0 → Alert, 1 → Voice, 2 → Pain,
3 → Unresponsive (only ever consulted with 0–3). -/
def consciousnessMap (n : ℤ) : String :=
  if n = 0 then "Alert"
  else if n = 1 then "Voice"
  else if n = 2 then "Pain"
  else "Unresponsive"

/-- Fallback of `mapConsciousnessValue` when the parsed number is not in
0–3: an AVPU string passes through, everything else defaults to
`Alert`. -/
def avpuFallback (v : JSVal) : String :=
  match v with
  | .str s =>
    if s = "Alert" ∨ s = "Voice" ∨ s = "Pain" ∨ s = "Unresponsive" then s
    else "Alert"
  | .num _ => "Alert"

/-- `mapConsciousnessValue` of `ewsHelper.js`: parse the value as an
integer; 0–3 goes through `CONSCIOUSNESS_MAP`, otherwise an AVPU string
is returned unchanged and anything else defaults to `Alert`. -/
def mapConsciousnessValue (v : JSVal) : String :=
  match parseIntJS v with
  | some n => if 0 ≤ n ∧ n ≤ 3 then consciousnessMap n else avpuFallback v
  | none => avpuFallback v

/-- C10 (counterexample): 2.7 is neither an integer 0–3 (its reduced
denominator is 10) nor an AVPU string, yet `mapConsciousnessValue`
returns `Pain`, not `Alert`: `parseInt` truncates 2.7 to 2 first. -/
theorem mapConsciousnessValue_truncates_not_alert :
    (mkRat 27 10).den = 10 ∧
    mapConsciousnessValue (JSVal.num (mkRat 27 10)) = "Pain" ∧
    mapConsciousnessValue (JSVal.num (mkRat 27 10)) ≠ "Alert" := by
  refine ⟨by decide, by decide, by decide⟩

lemma consciousnessMap_mem (n : ℤ) :
    consciousnessMap n = "Alert" ∨ consciousnessMap n = "Voice" ∨
    consciousnessMap n = "Pain" ∨ consciousnessMap n = "Unresponsive" := by
  unfold consciousnessMap
  split_ifs <;> tauto

lemma avpuFallback_mem (v : JSVal) :
    avpuFallback v = "Alert" ∨ avpuFallback v = "Voice" ∨
    avpuFallback v = "Pain" ∨ avpuFallback v = "Unresponsive" := by
  cases v with
  | num q => left; rfl
  | str s =>
    simp only [avpuFallback]
    split_ifs with h
    · tauto
    · tauto

lemma mapConsciousnessValue_eq_some {v : JSVal} {n : ℤ}
    (hp : parseIntJS v = some n) :
    mapConsciousnessValue v =
      if 0 ≤ n ∧ n ≤ 3 then consciousnessMap n else avpuFallback v := by
  unfold mapConsciousnessValue
  rw [hp]

lemma mapConsciousnessValue_eq_none {v : JSVal}
    (hp : parseIntJS v = none) :
    mapConsciousnessValue v = avpuFallback v := by
  unfold mapConsciousnessValue
  rw [hp]

lemma jsTrunc_of_nonneg_lt {q : ℚ} (h0 : 0 ≤ q) (h4 : q < 4) :
    0 ≤ jsTrunc q ∧ jsTrunc q ≤ 3 := by
  have hden : (0 : ℤ) < (q.den : ℤ) := by exact_mod_cast q.den_pos
  have hnum : 0 ≤ q.num := Rat.num_nonneg.mpr h0
  have hlt : q.num < 4 * (q.den : ℤ) := by
    have hq : ((q.num : ℚ) / (q.den : ℚ)) < 4 := by
      rw [Rat.num_div_den]; exact h4
    have hdq : (0 : ℚ) < (q.den : ℚ) := by exact_mod_cast q.den_pos
    have := (div_lt_iff₀ hdq).mp hq
    exact_mod_cast this
  obtain ⟨m, hm⟩ := Int.eq_ofNat_of_zero_le hnum
  have htd : jsTrunc q = ((m / q.den : ℕ) : ℤ) := by
    unfold jsTrunc
    rw [hm, ← Int.ofNat_tdiv]
  constructor
  · rw [htd]; exact_mod_cast Nat.zero_le _
  · rw [htd]
    have hmlt : m < 4 * q.den := by
      rw [hm] at hlt
      exact_mod_cast hlt
    have : m / q.den < 4 := by
      rw [Nat.div_lt_iff_lt_mul q.den_pos]
      omega
    exact_mod_cast by omega

lemma jsTrunc_of_neg {q : ℚ} (h : q < 0) : jsTrunc q ≤ 0 := by
  have hnum : q.num < 0 := Rat.num_neg.mpr h
  have hneg : jsTrunc q = -(Int.tdiv (-q.num) (q.den : ℤ)) := by
    unfold jsTrunc
    rw [← Int.neg_tdiv, Int.neg_neg]
  rw [hneg]
  have : 0 ≤ Int.tdiv (-q.num) (q.den : ℤ) :=
    Int.tdiv_nonneg (by omega) (by exact_mod_cast Nat.zero_le _)
  omega

lemma jsTrunc_of_ge4 {q : ℚ} (h : (4 : ℚ) ≤ q) : 4 ≤ jsTrunc q := by
  have hden : (0 : ℤ) < (q.den : ℤ) := by exact_mod_cast q.den_pos
  have hnum : 0 ≤ q.num := Rat.num_nonneg.mpr (le_trans (by norm_num) h)
  have hge : 4 * (q.den : ℤ) ≤ q.num := by
    have hq : (4 : ℚ) ≤ ((q.num : ℚ) / (q.den : ℚ)) := by
      rw [Rat.num_div_den]; exact h
    have hdq : (0 : ℚ) < (q.den : ℚ) := by exact_mod_cast q.den_pos
    have := (le_div_iff₀ hdq).mp hq
    exact_mod_cast this
  obtain ⟨m, hm⟩ := Int.eq_ofNat_of_zero_le hnum
  have htd : jsTrunc q = ((m / q.den : ℕ) : ℤ) := by
    unfold jsTrunc
    rw [hm, ← Int.ofNat_tdiv]
  rw [htd]
  have hmge : 4 * q.den ≤ m := by
    rw [hm] at hge
    exact_mod_cast hge
  have : 4 ≤ m / q.den := by
    rw [Nat.le_div_iff_mul_le q.den_pos]
    omega
  exact_mod_cast this

/-- C10 (amended): `mapConsciousnessValue` is total and never rejects —
its result is always one of the four AVPU strings.  A numeric input is
first truncated toward zero by `parseInt`: any number in [0, 4) maps to
the AVPU string of its integer part (so 2.7 silently becomes Pain), while
numbers below 0 map to Alert (negative truncations fall back, and values
in (-1, 0] truncate to 0 which is Alert anyway), numbers ≥ 4 fall back to
Alert, and a string with no leading integer passes through if it is an
AVPU string and defaults to Alert otherwise. -/
theorem mapConsciousnessValue_total (v : JSVal) :
    (mapConsciousnessValue v = "Alert" ∨ mapConsciousnessValue v = "Voice" ∨
      mapConsciousnessValue v = "Pain" ∨
      mapConsciousnessValue v = "Unresponsive") ∧
    (∀ q : ℚ, v = JSVal.num q → 0 ≤ q → q < 4 →
      mapConsciousnessValue v = consciousnessMap (jsTrunc q)) ∧
    (∀ q : ℚ, v = JSVal.num q → (q < 0 ∨ (4 : ℚ) ≤ q) →
      mapConsciousnessValue v = "Alert") ∧
    (∀ s : String, v = JSVal.str s → parseIntStr s = none →
      mapConsciousnessValue v =
        (if s = "Alert" ∨ s = "Voice" ∨ s = "Pain" ∨ s = "Unresponsive"
         then s else "Alert")) := by
  refine ⟨?_, ?_, ?_, ?_⟩
  · cases hp : parseIntJS v with
    | some n =>
      rw [mapConsciousnessValue_eq_some hp]
      split_ifs with h
      · exact consciousnessMap_mem n
      · exact avpuFallback_mem v
    | none =>
      rw [mapConsciousnessValue_eq_none hp]
      exact avpuFallback_mem v
  · intro q hq h0 h4
    subst hq
    have hb := jsTrunc_of_nonneg_lt h0 h4
    rw [mapConsciousnessValue_eq_some
      (show parseIntJS (JSVal.num q) = some (jsTrunc q) from rfl)]
    rw [if_pos hb]
  · intro q hq hout
    subst hq
    rw [mapConsciousnessValue_eq_some
      (show parseIntJS (JSVal.num q) = some (jsTrunc q) from rfl)]
    rcases hout with hneg | hge
    · have hle := jsTrunc_of_neg hneg
      by_cases hz : jsTrunc q = 0
      · rw [if_pos (by omega), hz]
        rfl
      · rw [if_neg (by omega)]
        rfl
    · have hge4 := jsTrunc_of_ge4 hge
      rw [if_neg (by omega)]
      rfl
  · intro s hs hparse
    subst hs
    rw [mapConsciousnessValue_eq_none
      (show parseIntJS (JSVal.str s) = none from hparse)]
    rfl

/-- Witness for the amended C10: the out-of-range integer 7 and the
arbitrary string `confused` both come out as Alert, and 2.7 as Pain. -/
theorem mapConsciousnessValue_total_witness :
    mapConsciousnessValue (JSVal.num 7) = "Alert" ∧
    mapConsciousnessValue (JSVal.num (-1)) = "Alert" ∧
    mapConsciousnessValue (JSVal.num (mkRat 27 10)) =
      consciousnessMap (jsTrunc (mkRat 27 10)) ∧
    consciousnessMap (jsTrunc (mkRat 27 10)) = "Pain" :=
  ⟨(mapConsciousnessValue_total (JSVal.num 7)).2.2.1 7 rfl
      (Or.inr (by norm_num)),
    (mapConsciousnessValue_total (JSVal.num (-1))).2.2.1 (-1) rfl
      (Or.inl (by norm_num)),
    (mapConsciousnessValue_total (JSVal.num (mkRat 27 10))).2.1 (mkRat 27 10)
      rfl (by norm_num [Rat.mkRat_eq_div]) (by norm_num [Rat.mkRat_eq_div]),
    by decide⟩

end SASSI
